import Mathlib

/-!
Shallow embedding of the auto_proxy provisioning/deprovisioning orchestrator.

The Go sources are embedded as pure Lean functions.  External effects
(provider SDK calls, file IO, subprocess runs, TCP dials) are passed in as
explicit oracles / scripts; traces record the observable effects (which calls
were made, what was persisted, what was slept).  Time units are seconds,
matching the source's `time.Second` base unit.
-/

/-- Durable proxy record (RecordManager / record.go).  The Go field `Type`
is spelled `type` here because `Type` is reserved in Lean; it holds the
resource kind, `"instance"` or `"disk"`. -/
structure ProxyRecord where
  Name : String
  Provider : String
  Region : String
  Zone : String
  InstanceID : String
  IP : String
  type : String
  Location : String
deriving DecidableEq

/-- Read-only instance snapshot (cloud.go): public address and boot-disk id. -/
structure InstanceInfo where
  IP : String
  DiskID : String
deriving DecidableEq

/-- Error returned by a provider SDK call: either a `googleapi.Error`
carrying a numeric status code, or any other error. -/
inductive GErr where
  | api (code : Nat) (msg : String)
  | other (msg : String)
deriving DecidableEq

/-- Retryability classification from the submission loops
(`gerr, ok := err.(*googleapi.Error); ok && gerr.Code >= 500`). -/
def isServerErr : GErr → Bool
  | GErr.api code _ => decide (500 ≤ code)
  | GErr.other _ => false

/-- Provider long-running operation status as polled by `ZoneOperations.Get`:
a status string (terminal when `"DONE"`) and an optional embedded error. -/
structure Operation where
  status : String
  opError : Option String
deriving DecidableEq

/-- One scripted response of the status-fetch call: the fetch itself can
fail, or return an `Operation`. -/
abbrev PollResp := Except GErr Operation

/-- Result of the async operation waiter (the inner `for` loop polling
`ZoneOperations.Get` in CreateInstance / DeleteInstance / DeleteDisk). -/
inductive WaitResult where
  | ok
  | checkFailed (e : GErr)
  | opFailed (msg : String)
  | scriptExhausted
deriving DecidableEq

/-- Async operation waiter over a scripted list of poll responses.  Returns
the outcome together with the number of polls performed.  A script that runs
out before a terminal response models the loop still polling (the source
loop is unbounded); this is reported as `scriptExhausted` with the number of
scripted polls consumed. -/
def waitForOperation : List PollResp → WaitResult × Nat
  | [] => (WaitResult.scriptExhausted, 0)
  | Except.error e :: _ => (WaitResult.checkFailed e, 1)
  | Except.ok op :: rest =>
    if op.status = "DONE" then
      match op.opError with
      | some msg => (WaitResult.opFailed msg, 1)
      | none => (WaitResult.ok, 1)
    else
      let r := waitForOperation rest
      (r.1, r.2 + 1)

/-- A poll response is non-terminal when the fetch succeeded and the status
is not `"DONE"` (the waiter sleeps and polls again on such a response). -/
def isPendingResp : PollResp → Bool
  | Except.ok op => decide (op.status ≠ "DONE")
  | Except.error _ => false

/-- Generic submission retry loop shared (textually repeated) by
`GCPProvider.CreateInstance`, `GCPProvider.DeleteInstance` and
`GCPProvider.DeleteDisk` (gcp.go): `maxRetries := 5`; on a successful
submission the success continuation is the answer; an error with a provider
status `>= 500` sleeps `1<<attempt` seconds (base unit 1 s, i.e.
`base * 2^attempt`) and retries; any other error aborts; exhausting the
attempts yields the distinct retries-exhausted outcome.  `submit k` is the
scripted outcome of the `k`-th submission (`none` = success).  The returned
triple is (result, number of submissions made, backoff sleeps in seconds). -/
def retryLoop {α : Type} (submit : Nat → Option GErr) (success : α)
    (fatal : GErr → α) (exhausted : α) : Nat → Nat → α × Nat × List Nat
  | _, 0 => (exhausted, 0, [])
  | attempt, fuel + 1 =>
    match submit attempt with
    | none => (success, 1, [])
    | some e =>
      if isServerErr e then
        let t := retryLoop submit success fatal exhausted (attempt + 1) fuel
        (t.1, t.2.1 + 1, 2 ^ attempt :: t.2.2)
      else (fatal e, 1, [])

/-- Outcome of `GCPProvider.CreateInstance`.  `retriesExhausted` is the
distinct "failed to create instance after 5 retries" error, carrying no
underlying provider error. -/
inductive CreateResult where
  | ok (name ip : String)
  | checkFailed (e : GErr)
  | opFailed (msg : String)
  | getInfoFailed (e : GErr)
  | nonRetryable (e : GErr)
  | retriesExhausted
  | stillPolling
deriving DecidableEq

/-- Outcome of `GCPProvider.DeleteInstance` / `GCPProvider.DeleteDisk`. -/
inductive DeleteResult where
  | ok
  | checkFailed (e : GErr)
  | opFailed (msg : String)
  | nonRetryable (e : GErr)
  | retriesExhausted
  | stillPolling
deriving DecidableEq

/-- Success continuation of CreateInstance: wait for the insert operation,
then fetch the instance to read its NAT IP (`Instances.Get`, modelled by the
`getInst` oracle returning the IP). -/
def createSuccess (name : String) (poll : List PollResp)
    (getInst : Except GErr String) : CreateResult :=
  match waitForOperation poll with
  | (WaitResult.checkFailed e, _) => CreateResult.checkFailed e
  | (WaitResult.opFailed m, _) => CreateResult.opFailed m
  | (WaitResult.scriptExhausted, _) => CreateResult.stillPolling
  | (WaitResult.ok, _) =>
    match getInst with
    | Except.error e => CreateResult.getInfoFailed e
    | Except.ok ip => CreateResult.ok name ip

/-- Success continuation of the delete operations: wait for the delete
operation to complete. -/
def deleteSuccess (poll : List PollResp) : DeleteResult :=
  match waitForOperation poll with
  | (WaitResult.checkFailed e, _) => DeleteResult.checkFailed e
  | (WaitResult.opFailed m, _) => DeleteResult.opFailed m
  | (WaitResult.scriptExhausted, _) => DeleteResult.stillPolling
  | (WaitResult.ok, _) => DeleteResult.ok

namespace GCPProvider

/-- GCPProvider.CreateInstance (gcp.go): submission retry loop around
`Instances.Insert`, then operation wait, then `Instances.Get` for the IP. -/
def CreateInstance (name : String) (submit : Nat → Option GErr)
    (poll : List PollResp) (getInst : Except GErr String) :
    CreateResult × Nat × List Nat :=
  retryLoop submit (createSuccess name poll getInst) CreateResult.nonRetryable
    CreateResult.retriesExhausted 0 5

/-- GCPProvider.DeleteInstance (gcp.go): submission retry loop around
`Instances.Delete`, then operation wait. -/
def DeleteInstance (submit : Nat → Option GErr) (poll : List PollResp) :
    DeleteResult × Nat × List Nat :=
  retryLoop submit (deleteSuccess poll) DeleteResult.nonRetryable
    DeleteResult.retriesExhausted 0 5

/-- GCPProvider.DeleteDisk (gcp.go): submission retry loop around
`Disks.Delete`, then operation wait; same structure as DeleteInstance. -/
def DeleteDisk (submit : Nat → Option GErr) (poll : List PollResp) :
    DeleteResult × Nat × List Nat :=
  retryLoop submit (deleteSuccess poll) DeleteResult.nonRetryable
    DeleteResult.retriesExhausted 0 5

end GCPProvider

/-- Model of Go `strings.Split(s, "/")` on the character list: splitting on
`'/'` always yields at least one (possibly empty) segment. -/
def splitSlash : List Char → List (List Char)
  | [] => [[]]
  | c :: rest =>
    let r := splitSlash rest
    if c = '/' then [] :: r
    else
      match r with
      | [] => [[c]]
      | h :: t => (c :: h) :: t

/-- Last path segment of a slash-separated identifier:
`parts := strings.Split(src, "/"); parts[len(parts)-1]`. -/
def lastSegment (s : String) : String :=
  String.mk ((splitSlash s.toList).getLastD [])

/-- Attached disk as read from the fetched instance description. -/
structure GAttachedDisk where
  Boot : Bool
  Source : String
deriving DecidableEq

/-- The part of the fetched instance description used by GetInstanceInfo:
the NAT IP (`NetworkInterfaces[0].AccessConfigs[0].NatIP`, modelled as a
field) and the attached disks. -/
structure GInstanceDesc where
  NatIP : String
  Disks : List GAttachedDisk
deriving DecidableEq

namespace GCPProvider

/-- GCPProvider.GetInstanceInfo (gcp.go): fetch the instance description;
on fetch error return a zero-valued snapshot and the error.  Otherwise take
the IP and the last path segment of the first boot disk's Source; if no
boot disk produced a non-empty id, return a zero-valued snapshot and the
"no boot disk found" error.  The pair mirrors Go's `(InstanceInfo, error)`
return (`none` = nil error). -/
def GetInstanceInfo (instanceID : String) (fetch : Except String GInstanceDesc) :
    InstanceInfo × Option String :=
  match fetch with
  | Except.error e => (⟨"", ""⟩, some ("failed to get instance info: " ++ e))
  | Except.ok inst =>
    let diskID :=
      match inst.Disks.find? (fun d => d.Boot) with
      | some d => lastSegment d.Source
      | none => ""
    if diskID = "" then
      (⟨"", ""⟩, some ("no boot disk found for instance " ++ instanceID))
    else (⟨inst.NatIP, diskID⟩, none)

end GCPProvider

/-- Outcome of reading the records file (RecordManager.Load's `os.ReadFile`):
the file may not exist, the read may fail otherwise, or it yields data. -/
inductive ReadResult where
  | notExist
  | failed (e : String)
  | ok (data : String)
deriving DecidableEq

namespace RecordManager

/-- RecordManager.Load (record.go): a missing backing file yields an empty
collection and no error; a failed read or a failed unmarshal is an error.
`unmarshal` abstracts `json.Unmarshal` on the raw data. -/
def Load (read : ReadResult)
    (unmarshal : String → Except String (List ProxyRecord)) :
    Except String (List ProxyRecord) :=
  match read with
  | ReadResult.notExist => Except.ok []
  | ReadResult.failed e => Except.error ("failed to read records: " ++ e)
  | ReadResult.ok data =>
    match unmarshal data with
    | Except.error e => Except.error ("failed to unmarshal records: " ++ e)
    | Except.ok records => Except.ok records

end RecordManager

/-- One scripted TCP dial attempt (`net.DialTimeout`) against the target:
either the target accepts, or the dial fails, in each case after `dur`
time units (the source's per-attempt connect timeout bounds `dur` by 2;
the bound is not needed for the properties proved here). -/
inductive DialOutcome where
  | accept (dur : Nat)
  | refuse (dur : Nat)
deriving DecidableEq

/-- waitForSSH (main.go): starting at time `t` with deadline `deadline`
(deadline = start + timeout; the source calls it with a 60 s timeout, the
parameter is the probe contract's total timeout), repeatedly dial; a
successful dial returns immediately; a failed dial advances time by its
duration plus the fixed 2 s sleep and retries; once the deadline has passed
the probe reports not-ready.  Returns `some (ready?, attempts)`, or `none`
when the dial script ran out while the loop would still be running. -/
def waitForSSH (deadline t : Nat) (script : List DialOutcome) :
    Option (Bool × Nat) :=
  if deadline ≤ t then some (false, 0)
  else
    match script with
    | [] => none
    | DialOutcome.accept _ :: _ => some (true, 1)
    | DialOutcome.refuse d :: rest =>
      match waitForSSH deadline (t + d + 2) rest with
      | none => none
      | some (b, n) => some (b, n + 1)

/-- Trace of the legacy deployProxy (main.go): whether ansible-playbook was
started, and the function's returned error. -/
structure LegacyDeployTrace where
  ansibleInvoked : Bool
  ret : Except String Unit

/-- deployProxy (main.go): write inventory.ini and playbook.yml (each write
may fail and aborts), run waitForSSH, and only if the host became ready run
ansible-playbook.  A not-ready probe is fatal: the error is wrapped as
"SSH not ready" and ansible-playbook is never started.  `timeout`/`dials`
feed the probe; `ansible` is the scripted result of the playbook run. -/
def deployProxy (wInv wPb : Option String) (timeout : Nat)
    (dials : List DialOutcome) (ansible : Option String) :
    Option LegacyDeployTrace :=
  match wInv with
  | some e => some ⟨false, Except.error e⟩
  | none =>
    match wPb with
    | some e => some ⟨false, Except.error e⟩
    | none =>
      match waitForSSH timeout 0 dials with
      | none => none
      | some (false, _) => some ⟨false, Except.error "SSH not ready"⟩
      | some (true, _) =>
        match ansible with
        | some e => some ⟨true, Except.error ("ansible-playbook failed: " ++ e)⟩
        | none => some ⟨true, Except.ok ()⟩

/-- Bounded SSH readiness loop of AnsibleProxyDeployer.Deploy (proxy.go):
`for i := 0; i < 30; i++` run an `ssh ... exit` probe; break on the first
success, otherwise sleep 2 s and continue.  `probe i` is the scripted result
of the `i`-th attempt; the value is the number of attempts actually made.
Exhausting all 30 attempts is not reported to the caller. -/
def sshExecLoop (probe : Nat → Bool) : Nat → Nat → Nat
  | _, 0 => 0
  | i, fuel + 1 => if probe i then 1 else 1 + sshExecLoop probe (i + 1) fuel

/-- Trace of AnsibleProxyDeployer.Deploy (proxy.go). -/
structure DeployTrace where
  sshAttempts : Nat
  ansibleInvoked : Bool
  ret : Except String Unit

/-- AnsibleProxyDeployer.Deploy (proxy.go): write inventory.ini (failure
aborts with the error) and playbook.yml (failure returns nil — as in the
source), run the bounded SSH loop, then unconditionally run
ansible-playbook: the loop's outcome is ignored, so a host that never
became reachable still gets the configuration run. -/
def AnsibleProxyDeployer.Deploy (wInv wPb : Option String)
    (probe : Nat → Bool) (ansible : Option String) : DeployTrace :=
  match wInv with
  | some e => ⟨0, false, Except.error e⟩
  | none =>
    match wPb with
    | some _ => ⟨0, false, Except.ok ()⟩
    | none =>
      let attempts := sshExecLoop probe 0 30
      match ansible with
      | some e => ⟨attempts, true, Except.error ("ansible-playbook failed: " ++ e)⟩
      | none => ⟨attempts, true, Except.ok ()⟩

/-- Go `strings.ToUpper`, character by character. -/
def goToUpper (s : String) : String := String.mk (s.toList.map Char.toUpper)

/-- Go `strings.ReplaceAll(s, "-", "")`: drop every dash. -/
def removeDashes (s : String) : String :=
  String.mk (s.toList.filter (fun c => c ≠ '-'))

/-- Go `strings.HasSuffix`, on character lists. -/
def goHasSuffix (s suf : String) : Bool := List.isSuffixOf suf.toList s.toList

/-- regionToLocations (commander.go): map each region through the
location-label table, keeping the region itself when unmapped.  The Go map
is modelled as an association list. -/
def regionToLocations (regions : List String)
    (mapping : List (String × String)) : List String :=
  regions.map (fun r => (((mapping.find? (fun kv => kv.1 = r)).map
    (fun kv => kv.2)).getD r))

/-- Lookup in the reversed table (`reverseMap[selectedLocation]` in
Commander.Create); a missing key yields the Go zero value `""`.  The source
builds `reverseMap` by iterating a Go map, so when two regions share a
label the winner is unspecified; the first table entry is chosen here. -/
def reverseLookup (mapping : List (String × String)) (loc : String) : String :=
  ((mapping.find? (fun kv => kv.2 = loc)).map (fun kv => kv.1)).getD ""

/-- Environment of one Commander.Create run: the survey selections the user
makes, and the scripted outcomes of every external call the pipeline can
issue, in source order.  `createI` is the capability-interface
CreateInstance returning (instanceID, ip); `deployErr` the Deploy outcome
(`none` = success); `load`/`saveErr` the Record Store. -/
structure CreateEnv where
  selPlatform : String
  listRegions : Except String (List String)
  locMap : List (String × String)
  selLocation : String
  listZones : Except String (List String)
  selZone : String
  listMachineTypes : Except String (List String)
  recommendedType : String
  selType : String
  createI : Except String (String × String)
  deployErr : Option String
  load : Except String (List ProxyRecord)
  saveErr : Option String

/-- Trace of one Commander.Create run: returned error, whether Deploy ran,
how often the Record Store was read and written, and what was written. -/
structure CreateTrace where
  ret : Except String Unit
  deployCalls : Nat
  loadCalls : Nat
  saveCalls : Nat
  savedRecords : Option (List ProxyRecord)

namespace Commander

/-- Commander.Create (commander.go): list regions; require platform GCP;
translate regions to display labels and resolve the selected label back to
a region; list zones and machine types (the displayed lists, including the
" (recommended)" suffixing, are computed but the selection is an input);
derive the instance name from the zone; create the instance; deploy; only
then load the record collection, append the `instance` record and save it.
Every failing step aborts with a wrapped error. -/
def Create (env : CreateEnv) : CreateTrace :=
  match env.listRegions with
  | Except.error e => ⟨Except.error ("error listing regions: " ++ e), 0, 0, 0, none⟩
  | Except.ok regions =>
    if goToUpper env.selPlatform = "GCP" then
      let _locations := regionToLocations regions env.locMap
      let selectedRegion := reverseLookup env.locMap env.selLocation
      match env.listZones with
      | Except.error e => ⟨Except.error ("error listing zones: " ++ e), 0, 0, 0, none⟩
      | Except.ok _zones =>
        match env.listMachineTypes with
        | Except.error e =>
          ⟨Except.error ("error listing machine types: " ++ e), 0, 0, 0, none⟩
        | Except.ok machineTypes =>
          let recommended := env.recommendedType
          let _displayed := machineTypes.map
            (fun mt => if mt = recommended then mt ++ " (recommended)" else mt)
          let _selectedType :=
            if goHasSuffix env.selType " (recommended)" then recommended
            else env.selType
          let name := "proxy-" ++ removeDashes env.selZone
          match env.createI with
          | Except.error e =>
            ⟨Except.error ("error creating instance: " ++ e), 0, 0, 0, none⟩
          | Except.ok (instanceID, ip) =>
            match env.deployErr with
            | some e =>
              ⟨Except.error ("error deploying proxy: " ++ e), 1, 0, 0, none⟩
            | none =>
              match env.load with
              | Except.error e =>
                ⟨Except.error ("error loading records: " ++ e), 1, 1, 0, none⟩
              | Except.ok records =>
                let newRecords := records ++
                  [⟨name, "gcp", selectedRegion, env.selZone, instanceID, ip,
                    "instance", env.selLocation⟩]
                match env.saveErr with
                | some e =>
                  ⟨Except.error ("error saving records: " ++ e), 1, 1, 1,
                    some newRecords⟩
                | none => ⟨Except.ok (), 1, 1, 1, some newRecords⟩
    else ⟨Except.error ("invalid platform: " ++ env.selPlatform), 0, 0, 0, none⟩

end Commander

/-- Predicate selecting the `instance`-kind record of a logical name
(`r.Name == name && r.Type == "instance"` in Commander.Delete). -/
def instPred (name : String) (r : ProxyRecord) : Bool :=
  decide (r.Name = name ∧ r.type = "instance")

/-- Predicate selecting a `disk`-kind orphan record carrying a given
storage identifier. -/
def orphanPred (diskID : String) (r : ProxyRecord) : Bool :=
  decide (r.type = "disk" ∧ r.InstanceID = diskID)

/-- Environment of one Commander.Delete run: scripted Record Store load,
GetInstanceInfo result (Go pair: snapshot plus optional error),
DeleteInstance and DeleteDisk outcomes (`none` = success), and the save
outcome. -/
structure DeleteEnv where
  load : Except String (List ProxyRecord)
  getInfo : InstanceInfo × Option String
  delInstanceErr : Option String
  delDiskErr : Option String
  saveErr : Option String

/-- Trace of one Commander.Delete run: returned error, whether the
not-found path was taken, the number of provider calls of each kind, and
the Record Store writes. -/
structure DeleteTrace where
  ret : Except String Unit
  notFound : Bool
  getInfoCalls : Nat
  delInstanceCalls : Nat
  delDiskCalls : Nat
  saveCalls : Nat
  savedRecords : Option (List ProxyRecord)

/-- Final save step of Commander.Delete: one Save call; its failure is the
returned error, otherwise the teardown reports success. -/
def deleteFinish (env : DeleteEnv) (recs : List ProxyRecord)
    (diskCalls : Nat) : DeleteTrace :=
  match env.saveErr with
  | some e => ⟨Except.error ("error saving records: " ++ e), false, 1, 1,
      diskCalls, 1, some recs⟩
  | none => ⟨Except.ok (), false, 1, 1, diskCalls, 1, some recs⟩

namespace Commander

/-- Commander.Delete (commander.go): load the collection; find the first
`instance`-kind record with the given name (absent: print not-found,
return nil, no provider calls); best-effort GetInstanceInfo (its error is
only logged, the zero-valued snapshot is kept); DeleteInstance (failure is
logged and printed and the function returns nil without saving); remove the
first matching `instance` record; if a boot-disk id was discovered, build
the `disk` orphan record and DeleteDisk, appending the orphan record when
that fails; finally save exactly once.  The `src` indirection models the Go
slice aliasing: `instanceRecord` points into the backing array, so after
the in-place removal its fields read the shifted element (the removed
record's own fields only when it was last); the orphan record's identifying
fields (`Name`, `InstanceID`, `type`) do not depend on `src`. -/
def Delete (env : DeleteEnv) (name : String) : DeleteTrace :=
  match env.load with
  | Except.error e =>
    ⟨Except.error ("error loading records: " ++ e), false, 0, 0, 0, 0, none⟩
  | Except.ok records =>
    match records.find? (instPred name) with
    | none => ⟨Except.ok (), true, 0, 0, 0, 0, none⟩
    | some instanceRecord =>
      let info := env.getInfo.1
      match env.delInstanceErr with
      | some _ => ⟨Except.ok (), false, 1, 1, 0, 0, none⟩
      | none =>
        let i0 := records.findIdx (instPred name)
        let records1 := records.eraseP (instPred name)
        if info.DiskID ≠ "" then
          let src := records1.getD i0 instanceRecord
          let diskRecord : ProxyRecord :=
            ⟨name, src.Provider, src.Region, src.Zone, info.DiskID, "",
              "disk", src.Location⟩
          match env.delDiskErr with
          | none => deleteFinish env records1 1
          | some _ => deleteFinish env (records1 ++ [diskRecord]) 1
        else deleteFinish env records1 0

end Commander

/-- Helper: when every submission in the remaining budget fails with a
server-side (status >= 500) error, the retry loop uses the whole budget,
makes exactly `fuel` submissions and sleeps `2 ^ attempt` seconds after
each one, ending in the exhausted outcome. -/
lemma retryLoop_exhausted {α : Type} (submit : Nat → Option GErr) (s : α)
    (f : GErr → α) (x : α) (fuel : Nat) :
    ∀ a, (∀ k, k < fuel → ∃ e, submit (a + k) = some e ∧ isServerErr e = true) →
      retryLoop submit s f x a fuel =
        (x, fuel, (List.range fuel).map fun k => 2 ^ (a + k)) := by
  induction fuel with
  | zero => intro a _; simp [retryLoop]
  | succ n ih =>
    intro a h
    obtain ⟨e, he, hse⟩ := h 0 (Nat.succ_pos n)
    rw [Nat.add_zero] at he
    have hrest : ∀ k, k < n →
        ∃ e, submit (a + 1 + k) = some e ∧ isServerErr e = true := by
      intro k hk
      have h2 := h (k + 1) (Nat.succ_lt_succ hk)
      rwa [show a + (k + 1) = a + 1 + k by omega] at h2
    have hlist : (List.range (n + 1)).map (fun k => 2 ^ (a + k)) =
        2 ^ a :: (List.range n).map (fun k => 2 ^ (a + 1 + k)) := by
      have hfun : ((fun k => 2 ^ (a + k)) ∘ Nat.succ) =
          (fun k => 2 ^ (a + 1 + k)) := by
        funext k
        show 2 ^ (a + (k + 1)) = 2 ^ (a + 1 + k)
        congr 1
        omega
      rw [List.range_succ_eq_map, List.map_cons, List.map_map, hfun, Nat.add_zero]
    simp only [retryLoop, he, hse, if_true]
    rw [ih (a + 1) hrest, hlist]

/-- Helper: a submission failing with a non-retryable error aborts at once:
one submission, no sleeps, the fatal outcome carrying that error. -/
lemma retryLoop_fatal {α : Type} (submit : Nat → Option GErr) (s : α)
    (f : GErr → α) (x : α) (a fuel : Nat) (e : GErr)
    (he : submit a = some e) (hf : isServerErr e = false) :
    retryLoop submit s f x a (fuel + 1) = (f e, 1, []) := by
  simp [retryLoop, he, hf]

/-- Helper: a successful submission returns the success continuation after
one submission and no sleeps. -/
lemma retryLoop_success {α : Type} (submit : Nat → Option GErr) (s : α)
    (f : GErr → α) (x : α) (a fuel : Nat) (he : submit a = none) :
    retryLoop submit s f x a (fuel + 1) = (s, 1, []) := by
  simp [retryLoop, he]

/-- C1: for each provider submission call (instance create, instance
delete, disk delete) whose submissions keep failing with a provider status
code >= 500, the retry loop makes exactly 5 attempts, sleeps
base * 2^k seconds after attempt k (base = 1 s), i.e. the sequence
1, 2, 4, 8, 16, and ends in the distinct retries-exhausted outcome rather
than the underlying provider error. -/
theorem C1_retries_exhausted
    (name : String) (sC sDI sDD : Nat → Option GErr)
    (pollC pollDI pollDD : List PollResp) (getI : Except GErr String)
    (hC : ∀ k, k < 5 → ∃ e, sC k = some e ∧ isServerErr e = true)
    (hDI : ∀ k, k < 5 → ∃ e, sDI k = some e ∧ isServerErr e = true)
    (hDD : ∀ k, k < 5 → ∃ e, sDD k = some e ∧ isServerErr e = true) :
    GCPProvider.CreateInstance name sC pollC getI =
      (CreateResult.retriesExhausted, 5, [1, 2, 4, 8, 16]) ∧
    GCPProvider.DeleteInstance sDI pollDI =
      (DeleteResult.retriesExhausted, 5, [1, 2, 4, 8, 16]) ∧
    GCPProvider.DeleteDisk sDD pollDD =
      (DeleteResult.retriesExhausted, 5, [1, 2, 4, 8, 16]) := by
  have hmap : (List.range 5).map (fun k => 2 ^ (0 + k)) = [1, 2, 4, 8, 16] := by
    decide
  refine ⟨?_, ?_, ?_⟩
  · rw [GCPProvider.CreateInstance,
      retryLoop_exhausted _ _ _ _ 5 0 (by simpa using hC), hmap]
  · rw [GCPProvider.DeleteInstance,
      retryLoop_exhausted _ _ _ _ 5 0 (by simpa using hDI), hmap]
  · rw [GCPProvider.DeleteDisk,
      retryLoop_exhausted _ _ _ _ 5 0 (by simpa using hDD), hmap]

/-- Witness for C1: concrete scripts where every submission returns a 503. -/
theorem C1_witness :
    GCPProvider.CreateInstance "p" (fun _ => some (GErr.api 503 "u")) []
        (Except.ok "ip") =
      (CreateResult.retriesExhausted, 5, [1, 2, 4, 8, 16]) ∧
    GCPProvider.DeleteInstance (fun _ => some (GErr.api 503 "u")) [] =
      (DeleteResult.retriesExhausted, 5, [1, 2, 4, 8, 16]) ∧
    GCPProvider.DeleteDisk (fun _ => some (GErr.api 503 "u")) [] =
      (DeleteResult.retriesExhausted, 5, [1, 2, 4, 8, 16]) :=
  C1_retries_exhausted "p" _ _ _ [] [] [] (Except.ok "ip")
    (fun _ _ => ⟨GErr.api 503 "u", rfl, rfl⟩)
    (fun _ _ => ⟨GErr.api 503 "u", rfl, rfl⟩)
    (fun _ _ => ⟨GErr.api 503 "u", rfl, rfl⟩)

/-- C8: a submission failing with an error whose status is below 500, or
with no provider status at all, is never retried: each of the three
retry-governed calls makes exactly one submission, sleeps nothing, and
aborts with the non-retryable outcome carrying the error. -/
theorem C8_fatal_no_retry
    (name : String) (e1 e2 e3 : GErr)
    (h1 : isServerErr e1 = false) (h2 : isServerErr e2 = false)
    (h3 : isServerErr e3 = false)
    (sC sDI sDD : Nat → Option GErr)
    (hC : sC 0 = some e1) (hDI : sDI 0 = some e2) (hDD : sDD 0 = some e3)
    (pollC pollDI pollDD : List PollResp) (getI : Except GErr String) :
    GCPProvider.CreateInstance name sC pollC getI =
      (CreateResult.nonRetryable e1, 1, []) ∧
    GCPProvider.DeleteInstance sDI pollDI =
      (DeleteResult.nonRetryable e2, 1, []) ∧
    GCPProvider.DeleteDisk sDD pollDD =
      (DeleteResult.nonRetryable e3, 1, []) := by
  refine ⟨?_, ?_, ?_⟩
  · rw [GCPProvider.CreateInstance, retryLoop_fatal _ _ _ _ 0 4 e1 hC h1]
  · rw [GCPProvider.DeleteInstance, retryLoop_fatal _ _ _ _ 0 4 e2 hDI h2]
  · rw [GCPProvider.DeleteDisk, retryLoop_fatal _ _ _ _ 0 4 e3 hDD h3]

/-- Witness for C8: a 404 client error (status below 500) and an error
carrying no provider status. -/
theorem C8_witness :
    GCPProvider.CreateInstance "p" (fun _ => some (GErr.api 404 "nf")) []
        (Except.ok "ip") =
      (CreateResult.nonRetryable (GErr.api 404 "nf"), 1, []) ∧
    GCPProvider.DeleteInstance (fun _ => some (GErr.other "net")) [] =
      (DeleteResult.nonRetryable (GErr.other "net"), 1, []) ∧
    GCPProvider.DeleteDisk (fun _ => some (GErr.api 404 "nf")) [] =
      (DeleteResult.nonRetryable (GErr.api 404 "nf"), 1, []) :=
  C8_fatal_no_retry "p" (GErr.api 404 "nf") (GErr.other "net")
    (GErr.api 404 "nf") rfl rfl rfl _ _ _ rfl rfl rfl [] [] [] (Except.ok "ip")

/-- C9: loading the record collection when the backing file does not exist
yields the empty collection and no error, whatever the unmarshaller would
do on data: absence of prior state is not a failure. -/
theorem C9_load_missing_file
    (unmarshal : String → Except String (List ProxyRecord)) :
    RecordManager.Load ReadResult.notExist unmarshal = Except.ok [] := rfl

/-- C10: GetInstanceInfo never succeeds with an empty boot-disk id; an
instance description with no boot disk yields the zero-valued snapshot and
an error; and on success the DiskID is the last path segment of the first
boot disk's Source identifier. -/
theorem C10_get_instance_info :
    (∀ instanceID fetch info,
        GCPProvider.GetInstanceInfo instanceID fetch = (info, none) →
        info.DiskID ≠ "") ∧
    (∀ instanceID inst, (∀ d ∈ GInstanceDesc.Disks inst, d.Boot = false) →
        GCPProvider.GetInstanceInfo instanceID (Except.ok inst) =
          (⟨"", ""⟩, some ("no boot disk found for instance " ++ instanceID))) ∧
    (∀ instanceID inst d info,
        (GInstanceDesc.Disks inst).find? (fun d => d.Boot) = some d →
        GCPProvider.GetInstanceInfo instanceID (Except.ok inst) = (info, none) →
        info.DiskID = lastSegment d.Source) := by
  refine ⟨?_, ?_, ?_⟩
  · intro instanceID fetch info h
    match fetch with
    | Except.error e => simp [GCPProvider.GetInstanceInfo] at h
    | Except.ok inst =>
      rw [GCPProvider.GetInstanceInfo] at h
      by_cases hd : (match inst.Disks.find? (fun d => d.Boot) with
          | some d => lastSegment d.Source
          | none => "") = ""
      · rw [if_pos hd] at h
        exact absurd (congrArg Prod.snd h) (by simp)
      · rw [if_neg hd] at h
        have : info.DiskID = (match inst.Disks.find? (fun d => d.Boot) with
            | some d => lastSegment d.Source
            | none => "") := by
          have := congrArg Prod.fst h
          simp at this
          rw [← this]
        rw [this]
        exact hd
  · intro instanceID inst hnone
    have hfind : inst.Disks.find? (fun d => d.Boot) = none := by
      apply List.find?_eq_none.mpr
      intro d hd
      simp [hnone d hd]
    rw [GCPProvider.GetInstanceInfo, hfind]
    simp
  · intro instanceID inst d info hfind h
    rw [GCPProvider.GetInstanceInfo, hfind] at h
    by_cases hd : lastSegment d.Source = ""
    · rw [if_pos hd] at h
      exact absurd (congrArg Prod.snd h) (by simp)
    · rw [if_neg hd] at h
      have := congrArg Prod.fst h
      simp at this
      rw [← this]

/-- Witness for C10 at a concrete instance description with one boot disk,
and at one with no boot disk. -/
theorem C10_witness :
    (InstanceInfo.mk "1.2.3.4" "d1").DiskID ≠ "" ∧
    GCPProvider.GetInstanceInfo "i1"
        (Except.ok ⟨"1.2.3.4", [⟨false, "x"⟩]⟩) =
      (⟨"", ""⟩, some ("no boot disk found for instance " ++ "i1")) ∧
    (InstanceInfo.mk "1.2.3.4" "d1").DiskID =
      lastSegment "projects/p/zones/z/disks/d1" :=
  ⟨C10_get_instance_info.1 "i1"
      (Except.ok ⟨"1.2.3.4", [⟨true, "projects/p/zones/z/disks/d1"⟩]⟩)
      ⟨"1.2.3.4", "d1"⟩ (by decide),
   C10_get_instance_info.2.1 "i1" ⟨"1.2.3.4", [⟨false, "x"⟩]⟩ (by decide),
   C10_get_instance_info.2.2 "i1"
      ⟨"1.2.3.4", [⟨true, "projects/p/zones/z/disks/d1"⟩]⟩
      ⟨true, "projects/p/zones/z/disks/d1"⟩ ⟨"1.2.3.4", "d1"⟩
      (by decide) (by decide)⟩

/-- Helper: full characterization of a waiter run that ends within its
script: the script splits into a block of non-terminal (pending) responses
followed by the terminal response the poll count points at, and the result
is determined by that terminal response alone. -/
lemma waitForOperation_spec :
    ∀ (s : List PollResp) (r : WaitResult) (n : Nat),
      waitForOperation s = (r, n) → r ≠ WaitResult.scriptExhausted →
      ∃ pre resp rest, s = pre ++ resp :: rest ∧ n = pre.length + 1 ∧
        (∀ p ∈ pre, isPendingResp p = true) ∧ isPendingResp resp = false ∧
        ((r = WaitResult.ok) ↔
          ∃ op, resp = Except.ok op ∧ op.status = "DONE" ∧ op.opError = none) ∧
        (∀ e, resp = Except.error e → r = WaitResult.checkFailed e) ∧
        (∀ op m, resp = Except.ok op → op.opError = some m →
          r = WaitResult.opFailed m) := by
  intro s
  induction s with
  | nil =>
    intro r n h hne
    simp only [waitForOperation, Prod.mk.injEq] at h
    exact absurd h.1.symm hne
  | cons head rest ih =>
    intro r n h hne
    cases head with
    | error e =>
      simp only [waitForOperation, Prod.mk.injEq] at h
      obtain ⟨hr, hn⟩ := h
      refine ⟨[], Except.error e, rest, rfl, by simp [← hn], by simp, rfl, ?_, ?_, ?_⟩
      · constructor
        · intro hok
          rw [← hr] at hok
          cases hok
        · rintro ⟨op, hop, -, -⟩
          cases hop
      · intro e2 he2
        injection he2 with he2'
        rw [← hr, he2']
      · intro op m hop
        cases hop
    | ok op =>
      by_cases hst : op.status = "DONE"
      · cases hoe : op.opError with
        | some m =>
          simp only [waitForOperation, hst, if_true, hoe, Prod.mk.injEq] at h
          obtain ⟨hr, hn⟩ := h
          refine ⟨[], Except.ok op, rest, rfl, by simp [← hn], by simp, ?_, ?_, ?_, ?_⟩
          · simp [isPendingResp, hst]
          · constructor
            · intro hok
              rw [← hr] at hok
              cases hok
            · rintro ⟨op2, hop2, -, hoe2⟩
              injection hop2 with hop2'
              rw [← hop2'] at hoe2
              rw [hoe] at hoe2
              cases hoe2
          · intro e2 he2
            cases he2
          · intro op2 m2 hop2 hoe2
            injection hop2 with hop2'
            rw [← hop2', hoe] at hoe2
            injection hoe2 with hm
            rw [← hr, hm]
        | none =>
          simp only [waitForOperation, hst, if_true, hoe, Prod.mk.injEq] at h
          obtain ⟨hr, hn⟩ := h
          refine ⟨[], Except.ok op, rest, rfl, by simp [← hn], by simp, ?_, ?_, ?_, ?_⟩
          · simp [isPendingResp, hst]
          · constructor
            · intro _
              exact ⟨op, rfl, hst, hoe⟩
            · intro _
              rw [← hr]
          · intro e2 he2
            cases he2
          · intro op2 m2 hop2 hoe2
            injection hop2 with hop2'
            rw [← hop2', hoe] at hoe2
            cases hoe2
      · rcases hwr : waitForOperation rest with ⟨r2, n2⟩
        simp only [waitForOperation, hst, if_false, ite_false, hwr,
          Prod.mk.injEq] at h
        obtain ⟨hr, hn⟩ := h
        have hne2 : r2 ≠ WaitResult.scriptExhausted := by
          rw [hr]
          exact hne
        obtain ⟨pre, resp, rest2, hs, hlen, hpend, hterm, hiff, hchk, hopf⟩ :=
          ih r2 n2 hwr hne2
        refine ⟨Except.ok op :: pre, resp, rest2, by simp [hs], ?_, ?_, hterm,
          by rw [← hr]; exact hiff, ?_, ?_⟩
        · simp only [List.length_cons]
          omega
        · intro p hp
          rcases List.mem_cons.mp hp with hp1 | hp2
          · rw [hp1]
            simp [isPendingResp, hst]
          · exact hpend p hp2
        · intro e2 he2
          rw [← hr]
          exact hchk e2 he2
        · intro op2 m2 hop2 hoe2
          rw [← hr]
          exact hopf op2 m2 hop2 hoe2

/-- C4: the async operation waiter never returns before the polled status
is terminal (every response before the one the poll count points at is a
successful non-DONE fetch, so neither an embedded operation error nor a
failed status fetch is ever retried at this layer); it succeeds exactly
when the terminal response is a DONE status with no embedded error; given
3 pending responses and then a clean DONE it succeeds after exactly 4
polls; the first status-fetch failure ends the wait at once; and both a
terminal embedded error and a fetch failure are surfaced by CreateInstance
as its result after a single submission, with no retry. -/
theorem C4_waiter_terminal :
    (∀ (s : List PollResp) (r : WaitResult) (n : Nat),
        waitForOperation s = (r, n) → r ≠ WaitResult.scriptExhausted →
        ∃ pre resp rest, s = pre ++ resp :: rest ∧ n = pre.length + 1 ∧
          (∀ p ∈ pre, isPendingResp p = true) ∧ isPendingResp resp = false ∧
          ((r = WaitResult.ok) ↔
            ∃ op, resp = Except.ok op ∧ op.status = "DONE" ∧
              op.opError = none) ∧
          (∀ e, resp = Except.error e → r = WaitResult.checkFailed e) ∧
          (∀ op m, resp = Except.ok op → op.opError = some m →
            r = WaitResult.opFailed m)) ∧
    waitForOperation [Except.ok ⟨"PENDING", none⟩, Except.ok ⟨"PENDING", none⟩,
        Except.ok ⟨"PENDING", none⟩, Except.ok ⟨"DONE", none⟩] =
      (WaitResult.ok, 4) ∧
    (∀ (e : GErr) (rest : List PollResp),
        waitForOperation (Except.error e :: rest) =
          (WaitResult.checkFailed e, 1)) ∧
    (∀ (name : String) (submit : Nat → Option GErr) (poll : List PollResp)
        (getI : Except GErr String) (m : String) (k : Nat),
        submit 0 = none → waitForOperation poll = (WaitResult.opFailed m, k) →
        GCPProvider.CreateInstance name submit poll getI =
          (CreateResult.opFailed m, 1, [])) ∧
    (∀ (name : String) (submit : Nat → Option GErr) (poll : List PollResp)
        (getI : Except GErr String) (e : GErr) (k : Nat),
        submit 0 = none →
        waitForOperation poll = (WaitResult.checkFailed e, k) →
        GCPProvider.CreateInstance name submit poll getI =
          (CreateResult.checkFailed e, 1, [])) := by
  refine ⟨waitForOperation_spec, by decide, ?_, ?_, ?_⟩
  · intro e rest
    simp [waitForOperation]
  · intro name submit poll getI m k hsub hwait
    rw [GCPProvider.CreateInstance, retryLoop_success _ _ _ _ 0 4 hsub]
    rw [createSuccess.eq_def, hwait]
  · intro name submit poll getI e k hsub hwait
    rw [GCPProvider.CreateInstance, retryLoop_success _ _ _ _ 0 4 hsub]
    rw [createSuccess.eq_def, hwait]

/-- Witness for C4: the characterization applied to the concrete script
with one pending response and then a clean DONE, and the fatal conjuncts
applied at concrete scripts. -/
theorem C4_witness :
    (∃ pre resp rest,
      ([Except.ok ⟨"PENDING", none⟩, Except.ok ⟨"DONE", none⟩] :
          List PollResp) = pre ++ resp :: rest ∧ 2 = pre.length + 1 ∧
        (∀ p ∈ pre, isPendingResp p = true) ∧ isPendingResp resp = false ∧
        ((WaitResult.ok = WaitResult.ok) ↔
          ∃ op, resp = Except.ok op ∧ op.status = "DONE" ∧
            op.opError = none) ∧
        (∀ e, resp = Except.error e → WaitResult.ok = WaitResult.checkFailed e) ∧
        (∀ op m, resp = Except.ok op → op.opError = some m →
          WaitResult.ok = WaitResult.opFailed m)) ∧
    GCPProvider.CreateInstance "p" (fun _ => none)
        [Except.ok ⟨"DONE", some "QUOTA_EXCEEDED"⟩] (Except.ok "ip") =
      (CreateResult.opFailed "QUOTA_EXCEEDED", 1, []) ∧
    GCPProvider.CreateInstance "p" (fun _ => none)
        [Except.error (GErr.other "timeout")] (Except.ok "ip") =
      (CreateResult.checkFailed (GErr.other "timeout"), 1, []) :=
  ⟨C4_waiter_terminal.1
      [Except.ok ⟨"PENDING", none⟩, Except.ok ⟨"DONE", none⟩]
      WaitResult.ok 2 (by decide) (by decide),
   C4_waiter_terminal.2.2.2.1 "p" (fun _ => none)
      [Except.ok ⟨"DONE", some "QUOTA_EXCEEDED"⟩] (Except.ok "ip")
      "QUOTA_EXCEEDED" 1 rfl (by decide),
   C4_waiter_terminal.2.2.2.2 "p" (fun _ => none)
      [Except.error (GErr.other "timeout")] (Except.ok "ip")
      (GErr.other "timeout") 1 rfl (by decide)⟩

/-- Helper: erasing the first match removes the only occurrence when the
predicate matched exactly once in the list. -/
lemma countP_eraseP_eq_zero {α : Type} (p : α → Bool) :
    ∀ l : List α, l.countP p = 1 → (l.eraseP p).countP p = 0 := by
  intro l
  induction l with
  | nil => simp
  | cons a t ih =>
    intro h
    by_cases hpa : p a
    · rw [List.eraseP_cons_of_pos hpa]
      rw [List.countP_cons_of_pos _ _ hpa] at h
      omega
    · rw [List.eraseP_cons_of_neg hpa, List.countP_cons_of_neg _ _ hpa]
      rw [List.countP_cons_of_neg _ _ hpa] at h
      exact ih h

/-- C2: teardown of a name whose `instance` record exists (exactly once,
per the data-model invariant) where the pre-delete info fetch discovered a
boot-disk id not already carried by any `disk` record, instance deletion
succeeds and disk deletion fails: the saved collection has no `instance`
record for the name and exactly one `disk` record carrying the orphaned
id, Save runs exactly once at the end, and the teardown reports success. -/
theorem C2_orphan_disk (env : DeleteEnv) (name diskID : String)
    (records : List ProxyRecord) (e : String)
    (hload : env.load = Except.ok records)
    (hone : records.countP (instPred name) = 1)
    (hno : records.countP (orphanPred diskID) = 0)
    (hinfo : env.getInfo.1.DiskID = diskID) (hne : diskID ≠ "")
    (hdelI : env.delInstanceErr = none)
    (hdelD : env.delDiskErr = some e)
    (hsave : env.saveErr = none) :
    (Commander.Delete env name).saveCalls = 1 ∧
    (Commander.Delete env name).ret = Except.ok () ∧
    ∃ final, (Commander.Delete env name).savedRecords = some final ∧
      final.countP (instPred name) = 0 ∧
      final.countP (orphanPred diskID) = 1 := by
  obtain ⟨r0, hfind⟩ : ∃ r, records.find? (instPred name) = some r := by
    have hs : (records.find? (instPred name)).isSome := by
      rw [List.find?_isSome]
      exact List.countP_pos_iff.mp (by omega)
    exact Option.isSome_iff_exists.mp hs
  have hd : ∀ rec : ProxyRecord, rec.type = "disk" →
      instPred name rec = false := by
    intro rec h
    simp only [instPred, decide_eq_false_iff_not]
    rintro ⟨-, h2⟩
    rw [h] at h2
    exact absurd h2 (by decide)
  have ho : ∀ rec : ProxyRecord, rec.type = "disk" → rec.InstanceID = diskID →
      orphanPred diskID rec = true := by
    intro rec h1 h2
    simp only [orphanPred, decide_eq_true_eq]
    exact ⟨h1, h2⟩
  have hsub : (records.eraseP (instPred name)).countP (orphanPred diskID) = 0 := by
    have hle : (records.eraseP (instPred name)).countP (orphanPred diskID) ≤
        records.countP (orphanPred diskID) :=
      (List.eraseP_sublist records).countP_le _
    omega
  simp only [Commander.Delete, hload, hfind, hinfo, hdelI, hdelD, hsave,
    deleteFinish, ne_eq, hne, not_false_eq_true, if_true, ite_true]
  refine ⟨trivial, trivial, _, rfl, ?_, ?_⟩
  · rw [List.countP_append, countP_eraseP_eq_zero _ _ hone, List.countP_cons,
      List.countP_nil, hd _ rfl]
    simp
  · rw [List.countP_append, hsub, List.countP_cons, List.countP_nil,
      ho _ rfl rfl]
    simp

/-- Witness for C2: a one-record collection, a discovered boot disk "d1",
successful instance deletion, failing disk deletion, successful save. -/
theorem C2_witness :
    (Commander.Delete ⟨Except.ok [⟨"p1", "gcp", "us-central1",
        "us-central1-a", "i1", "1.2.3.4", "instance", "Iowa"⟩],
        (⟨"1.2.3.4", "d1"⟩, none), none, some "disk quota", none⟩
      "p1").saveCalls = 1 ∧
    (Commander.Delete ⟨Except.ok [⟨"p1", "gcp", "us-central1",
        "us-central1-a", "i1", "1.2.3.4", "instance", "Iowa"⟩],
        (⟨"1.2.3.4", "d1"⟩, none), none, some "disk quota", none⟩
      "p1").ret = Except.ok () ∧
    ∃ final,
      (Commander.Delete ⟨Except.ok [⟨"p1", "gcp", "us-central1",
          "us-central1-a", "i1", "1.2.3.4", "instance", "Iowa"⟩],
          (⟨"1.2.3.4", "d1"⟩, none), none, some "disk quota", none⟩
        "p1").savedRecords = some final ∧
      final.countP (instPred "p1") = 0 ∧
      final.countP (orphanPred "d1") = 1 :=
  C2_orphan_disk _ "p1" "d1"
    [⟨"p1", "gcp", "us-central1", "us-central1-a", "i1", "1.2.3.4",
      "instance", "Iowa"⟩] "disk quota" rfl (by decide) (by decide) rfl
    (by decide) rfl rfl rfl

/-- C6: teardown of a name with no `instance`-kind record in the loaded
collection is an idempotent no-op: the not-found path is taken, no provider
call is made (no info fetch, no instance delete, no disk delete), nothing
is saved, and the result is success, not an error. -/
theorem C6_not_found_noop (env : DeleteEnv) (name : String)
    (records : List ProxyRecord)
    (hload : env.load = Except.ok records)
    (habsent : ∀ r ∈ records, instPred name r = false) :
    Commander.Delete env name = ⟨Except.ok (), true, 0, 0, 0, 0, none⟩ := by
  have hfind : records.find? (instPred name) = none := by
    rw [List.find?_eq_none]
    intro x hx
    simp [habsent x hx]
  simp only [Commander.Delete, hload, hfind]

/-- Witness for C6: teardown of "p1" over a collection holding only a
`disk`-kind record of the same name. -/
theorem C6_witness :
    Commander.Delete ⟨Except.ok [⟨"p1", "gcp", "r", "z", "d9", "",
        "disk", "loc"⟩], (⟨"", ""⟩, none), none, none, none⟩ "p1" =
      ⟨Except.ok (), true, 0, 0, 0, 0, none⟩ :=
  C6_not_found_noop _ "p1" [⟨"p1", "gcp", "r", "z", "d9", "", "disk", "loc"⟩]
    rfl (by decide)

/-- C7 counterexample: with an existing `instance` record and a fatally
failing instance deletion, the teardown returns nil (success) to its
caller — no wrapped error is surfaced — while leaving the collection
unsaved.  This refutes the claim's "surfaces a wrapped error identifying
the failed step to its caller". -/
theorem C7_counterexample :
    (Commander.Delete ⟨Except.ok [⟨"p1", "gcp", "us-central1",
        "us-central1-a", "i1", "1.2.3.4", "instance", "Iowa"⟩],
        (⟨"1.2.3.4", "d1"⟩, none), some "quota exceeded", none, none⟩
      "p1").ret = Except.ok () ∧
    (Commander.Delete ⟨Except.ok [⟨"p1", "gcp", "us-central1",
        "us-central1-a", "i1", "1.2.3.4", "instance", "Iowa"⟩],
        (⟨"1.2.3.4", "d1"⟩, none), some "quota exceeded", none, none⟩
      "p1").saveCalls = 0 := ⟨rfl, rfl⟩

/-- C7 amended: when instance deletion fails fatally the teardown aborts
with the collection untouched (no save, no disk deletion), but the failure
is only logged/printed: the pipeline returns success (nil) to its caller
instead of a wrapped error. -/
theorem C7_amended_abort_without_error (env : DeleteEnv) (name : String)
    (records : List ProxyRecord) (r : ProxyRecord) (e : String)
    (hload : env.load = Except.ok records)
    (hfind : records.find? (instPred name) = some r)
    (hdel : env.delInstanceErr = some e) :
    Commander.Delete env name = ⟨Except.ok (), false, 1, 1, 0, 0, none⟩ := by
  simp only [Commander.Delete, hload, hfind, hdel]

/-- Witness for the amended C7 at a concrete one-record collection. -/
theorem C7_witness :
    Commander.Delete ⟨Except.ok [⟨"p2", "gcp", "r", "z", "i2", "ip",
        "instance", "loc"⟩], (⟨"ip", "d2"⟩, none), some "boom", none, none⟩
      "p2" = ⟨Except.ok (), false, 1, 1, 0, 0, none⟩ :=
  C7_amended_abort_without_error _ "p2"
    [⟨"p2", "gcp", "r", "z", "i2", "ip", "instance", "loc"⟩]
    ⟨"p2", "gcp", "r", "z", "i2", "ip", "instance", "loc"⟩ "boom" rfl rfl rfl

/-- C3: when the remote configuration step (Deploy) returns an error, the
provisioning pipeline aborts before any record operation: the Record Store
is neither read nor written (so the persisted collection is unchanged and
no record is appended), and the pipeline returns an error. -/
theorem C3_no_record_on_deploy_failure (env : CreateEnv) (e : String)
    (hdep : env.deployErr = some e) :
    (Commander.Create env).loadCalls = 0 ∧
    (Commander.Create env).saveCalls = 0 ∧
    (Commander.Create env).savedRecords = none ∧
    ∃ m, (Commander.Create env).ret = Except.error m := by
  unfold Commander.Create
  rcases h1 : env.listRegions with e1 | regions
  · simp only [h1]
    exact ⟨by trivial, by trivial, by trivial, _, by trivial⟩
  · simp only [h1]
    by_cases hp : goToUpper env.selPlatform = "GCP"
    · rw [if_pos hp]
      rcases h2 : env.listZones with e2 | zones
      · simp only [h2]
        exact ⟨by trivial, by trivial, by trivial, _, by trivial⟩
      · simp only [h2]
        rcases h3 : env.listMachineTypes with e3 | mts
        · simp only [h3]
          exact ⟨by trivial, by trivial, by trivial, _, by trivial⟩
        · simp only [h3]
          rcases h4 : env.createI with e4 | ⟨iid, ip⟩
          · simp only [h4]
            exact ⟨by trivial, by trivial, by trivial, _, by trivial⟩
          · simp only [h4, hdep]
            exact ⟨by trivial, by trivial, by trivial, _, by trivial⟩
    · rw [if_neg hp]
      exact ⟨by trivial, by trivial, by trivial, _, by trivial⟩

/-- Witness for C3: a fully successful run up to Deploy, which fails. -/
theorem C3_witness :
    (Commander.Create ⟨"GCP", Except.ok ["us-east1"], [("us-east1", "SC")],
        "SC", Except.ok ["us-east1-b"], "us-east1-b", Except.ok ["e2-micro"],
        "e2-micro", "e2-micro", Except.ok ("i1", "1.2.3.4"),
        some "ansible failed", Except.ok [], none⟩).loadCalls = 0 ∧
    (Commander.Create ⟨"GCP", Except.ok ["us-east1"], [("us-east1", "SC")],
        "SC", Except.ok ["us-east1-b"], "us-east1-b", Except.ok ["e2-micro"],
        "e2-micro", "e2-micro", Except.ok ("i1", "1.2.3.4"),
        some "ansible failed", Except.ok [], none⟩).saveCalls = 0 ∧
    (Commander.Create ⟨"GCP", Except.ok ["us-east1"], [("us-east1", "SC")],
        "SC", Except.ok ["us-east1-b"], "us-east1-b", Except.ok ["e2-micro"],
        "e2-micro", "e2-micro", Except.ok ("i1", "1.2.3.4"),
        some "ansible failed", Except.ok [], none⟩).savedRecords = none ∧
    ∃ m, (Commander.Create ⟨"GCP", Except.ok ["us-east1"],
        [("us-east1", "SC")], "SC", Except.ok ["us-east1-b"], "us-east1-b",
        Except.ok ["e2-micro"], "e2-micro", "e2-micro",
        Except.ok ("i1", "1.2.3.4"), some "ansible failed", Except.ok [],
        none⟩).ret = Except.error m :=
  C3_no_record_on_deploy_failure _ "ansible failed" rfl

/-- Helper: against a target that never accepts, the TCP probe reports
not-ready; when it made n attempts, consecutive attempts are at least 2
time units apart and every attempt starts before the deadline, so
`t + 2*(n-1) < deadline` (or no attempt was made at all). -/
lemma waitForSSH_refuse_bound (deadline : Nat) :
    ∀ (script : List DialOutcome) (t : Nat) (b : Bool) (n : Nat),
      (∀ o ∈ script, ∃ d, o = DialOutcome.refuse d) →
      waitForSSH deadline t script = some (b, n) →
      b = false ∧ (n = 0 ∨ t + 2 * (n - 1) < deadline) := by
  intro script
  induction script with
  | nil =>
    intro t b n _ h
    rw [waitForSSH.eq_def] at h
    by_cases hd : deadline ≤ t
    · rw [if_pos hd] at h
      injection h with hp
      rw [Prod.mk.injEq] at hp
      exact ⟨hp.1.symm, Or.inl hp.2.symm⟩
    · rw [if_neg hd] at h
      cases h
  | cons o rest ih =>
    intro t b n hall h
    rw [waitForSSH.eq_def] at h
    by_cases hd : deadline ≤ t
    · rw [if_pos hd] at h
      injection h with hp
      rw [Prod.mk.injEq] at hp
      exact ⟨hp.1.symm, Or.inl hp.2.symm⟩
    · rw [if_neg hd] at h
      obtain ⟨d, ho⟩ := hall o (List.mem_cons_self o rest)
      subst ho
      rcases hrec : waitForSSH deadline (t + d + 2) rest with - | ⟨b2, n2⟩
      · simp only [hrec] at h
        cases h
      · simp only [hrec, Option.some.injEq, Prod.mk.injEq] at h
        obtain ⟨hb, hn⟩ := h
        obtain ⟨hb2, hrest⟩ := ih (t + d + 2) b2 n2
          (fun o2 ho2 => hall o2 (List.mem_cons_of_mem _ ho2)) hrec
        have ht : t < deadline := Nat.lt_of_not_le hd
        refine ⟨by rw [← hb, hb2], Or.inr ?_⟩
        rcases hrest with h0 | hlt
        · omega
        · omega

/-- Helper: a probe that never succeeds uses the entire attempt budget. -/
lemma sshExecLoop_all_false (probe : Nat → Bool) (hp : ∀ i, probe i = false) :
    ∀ fuel i, sshExecLoop probe i fuel = fuel := by
  intro fuel
  induction fuel with
  | zero => intro i; rfl
  | succ n ih =>
    intro i
    simp only [sshExecLoop, hp i, if_false, ite_false, Bool.false_eq_true]
    rw [ih (i + 1)]
    omega

/-- C5 counterexample: in the current deployer (AnsibleProxyDeployer.Deploy),
a host that never accepts a connection exhausts all 30 SSH attempts, yet
the remote configurator (ansible-playbook) is still invoked and the call
reports success, not a not-ready failure — refuting the claim that the
pipeline treats the failed probe as fatal and skips the configurator. -/
theorem C5_counterexample :
    (AnsibleProxyDeployer.Deploy none none (fun _ => false) none).ansibleInvoked
      = true ∧
    (AnsibleProxyDeployer.Deploy none none (fun _ => false) none).sshAttempts
      = 30 ∧
    (AnsibleProxyDeployer.Deploy none none (fun _ => false) none).ret
      = Except.ok () := ⟨rfl, rfl, rfl⟩

/-- C5 amended: the TCP readiness probe (waitForSSH), given a 6-time-unit
timeout and its fixed 2-time-unit poll interval, makes at most 3 attempts
against a host that never accepts and reports not-ready; the legacy
pipeline (deployProxy) treats that failure as fatal — the configurator is
not invoked and an error is returned; but the current deployer
(AnsibleProxyDeployer.Deploy) bounds its SSH loop at 30 attempts and does
not treat exhaustion as fatal: the configurator is invoked regardless. -/
theorem C5_amended_probe_behavior
    (dials : List DialOutcome) (b : Bool) (n : Nat)
    (h6 : ∀ o ∈ dials, ∃ d, o = DialOutcome.refuse d)
    (hrun : waitForSSH 6 0 dials = some (b, n))
    (wInv wPb : Option String) (timeout : Nat) (dials2 : List DialOutcome)
    (ansible : Option String) (t : LegacyDeployTrace) (m : Nat)
    (hssh : waitForSSH timeout 0 dials2 = some (false, m))
    (hdep : deployProxy wInv wPb timeout dials2 ansible = some t)
    (probe : Nat → Bool) (ans2 : Option String)
    (hprobe : ∀ i, probe i = false) :
    (b = false ∧ n ≤ 3) ∧
    (t.ansibleInvoked = false ∧ ∃ msg, t.ret = Except.error msg) ∧
    ((AnsibleProxyDeployer.Deploy none none probe ans2).ansibleInvoked = true ∧
      (AnsibleProxyDeployer.Deploy none none probe ans2).sshAttempts = 30) := by
  refine ⟨?_, ?_, ?_⟩
  · obtain ⟨hb, hn⟩ := waitForSSH_refuse_bound 6 dials 0 b n h6 hrun
    refine ⟨hb, ?_⟩
    rcases hn with h0 | hlt
    · omega
    · omega
  · rcases wInv with - | e1
    · rcases wPb with - | e2
      · simp only [deployProxy, hssh] at hdep
        injection hdep with ht
        rw [← ht]
        exact ⟨rfl, _, rfl⟩
      · simp only [deployProxy] at hdep
        injection hdep with ht
        rw [← ht]
        exact ⟨rfl, _, rfl⟩
    · simp only [deployProxy] at hdep
      injection hdep with ht
      rw [← ht]
      exact ⟨rfl, _, rfl⟩
  · have ha := sshExecLoop_all_false probe hprobe 30 0
    constructor
    · cases ans2 <;> simp [AnsibleProxyDeployer.Deploy]
    · cases ans2 <;> simp [AnsibleProxyDeployer.Deploy, ha]

/-- Witness for the amended C5: three refused dials under a 6-unit
deadline, the legacy deployProxy on that not-ready probe, and the current
deployer with a never-ready probe. -/
theorem C5_witness :
    ((false = false ∧ 3 ≤ 3) ∧
    ((⟨false, Except.error "SSH not ready"⟩ : LegacyDeployTrace).ansibleInvoked
        = false ∧
      ∃ msg, (⟨false, Except.error "SSH not ready"⟩ :
          LegacyDeployTrace).ret = Except.error msg) ∧
    ((AnsibleProxyDeployer.Deploy none none (fun _ => false)
        none).ansibleInvoked = true ∧
      (AnsibleProxyDeployer.Deploy none none (fun _ => false)
        none).sshAttempts = 30)) :=
  C5_amended_probe_behavior
    [DialOutcome.refuse 0, DialOutcome.refuse 0, DialOutcome.refuse 0]
    false 3
    (by
      intro o ho
      simp only [List.mem_cons, List.not_mem_nil, or_false] at ho
      rcases ho with rfl | rfl | rfl <;> exact ⟨0, rfl⟩)
    (by decide) none none 6
    [DialOutcome.refuse 0, DialOutcome.refuse 0, DialOutcome.refuse 0]
    none ⟨false, Except.error "SSH not ready"⟩ 3 (by decide) rfl
    (fun _ => false) none (fun _ => rfl)
